import Mathlib

/-!
Shallow embedding of the `django-locked-migrations` repository.

The embedded code:
* `src/locked_migrations/backends/file.py` — the `FileLock` backend, a thin
  wrapper over the external `filelock` library (`filelock.FileLock`, bound as
  `BaseFileLock`).
* `src/locked_migrations/backends/__init__.py` — the `AbstractBaseLock`
  interface and the convention-based `get_backend` registry.
* `src/locked_migrations/management/commands/migrate.py` — the wrapped
  `migrate` command: argument wiring (`GetBackend` action, defaults) and
  `Command.handle`, which acquires the lock, runs the base command in a
  `try`/`finally`, and releases in the `finally` block.

The external `filelock` dependency is embedded from its documented behavior
(the library is not part of this repository): its lock is counted/reentrant
per instance; `acquire` raises `filelock.Timeout` when the lock cannot be
obtained within the bound (it never returns on failure), returns a proxy whose
`.lock.is_locked` is true on success, and blocks indefinitely for a negative
timeout; `release` decrements the counter and unlocks at zero, and is a silent
no-op on an unlocked lock.

Wall-clock time is abstracted by a single environment parameter `freeAt`: the
instant (in arbitrary units, `some 0` = immediately) at which the underlying
OS-level lock becomes available to the calling process, or `none` if it never
does during the call.
-/

namespace LockedMigrations

/-- Exceptions the modelled Python code can raise: `filelock.Timeout`,
`RuntimeError`, `KeyError` (from `dict.pop` on a missing key), `TypeError`,
`ModuleNotFoundError` (from `importlib.import_module`), `ValueError` (from
`get_backend`), and an opaque failure raised by the protected operation. -/
inductive PyExn where
  | flTimeout
  | runtimeError
  | keyError
  | typeError
  | moduleNotFound
  | valueError
  | opFailure (code : Nat)
deriving DecidableEq

/-- Outcome of a Python call: a normal return, a raised exception, or a call
that never returns (an unbounded blocking wait on a lock that is never
freed). -/
inductive PyResult (α : Type) where
  | ok (a : α)
  | exn (e : PyExn)
  | hang
deriving DecidableEq

/-- State of one `filelock.BaseFileLock` instance: the lock-file path, the
reentrancy counter (`lock_counter`), and whether this instance currently holds
the OS-level file lock (`is_locked`, i.e. `lock_file_fd is not None`). -/
structure FLState where
  lockfile : String
  lockCounter : Nat
  osHeld : Bool
deriving DecidableEq

/-- `filelock.BaseFileLock.is_locked`: true while this instance holds the
OS-level lock. -/
def FLState.is_locked (s : FLState) : Bool := s.osHeld

/-- `filelock.BaseFileLock.acquire(timeout, blocking)`, from the library's
documented behavior. If the instance already holds the OS lock the counter is
incremented and the call returns at once (reentrant). Otherwise the call polls
the OS lock: it succeeds if the lock becomes free within the bound
(`freeAt = some t` with `t ≤ timeout`, or any `t` for a negative timeout, or
`t = 0` when `blocking` is false); on expiry it raises `filelock.Timeout`
(rolling the counter back); a negative timeout with a lock that is never freed
blocks forever. A successful call returns the new state (the return proxy's
`.lock.is_locked` is then true). -/
def flAcquire (blocking : Bool) (timeout : Int) (freeAt : Option Nat) (s : FLState) :
    PyResult FLState :=
  if s.osHeld then
    .ok { s with lockCounter := s.lockCounter + 1 }
  else
    match freeAt with
    | some t =>
        if blocking then
          if 0 ≤ timeout ∧ timeout < (t : Int) then .exn .flTimeout
          else .ok { s with lockCounter := s.lockCounter + 1, osHeld := true }
        else
          if t = 0 then .ok { s with lockCounter := s.lockCounter + 1, osHeld := true }
          else .exn .flTimeout
    | none =>
        if blocking then
          if 0 ≤ timeout then .exn .flTimeout else .hang
        else .exn .flTimeout

/-- `filelock.BaseFileLock.release()`, from the library's documented behavior:
if the lock is held, decrement the counter and unlock the file once it reaches
zero; if the lock is not held, do nothing. It never raises. -/
def flRelease (s : FLState) : FLState :=
  if s.osHeld then
    if s.lockCounter - 1 = 0 then { s with lockCounter := 0, osHeld := false }
    else { s with lockCounter := s.lockCounter - 1 }
  else s

/-- `FileLock.__init__` (file.py:23-26): read `LOCKED_MIGRATIONS_LOCKFILE`
from the Django settings, defaulting to `"migrations.lock"`, and wrap a
`BaseFileLock` on that path (constructed with `blocking=True` and the
library's default timeout of `-1`). -/
def FileLock.init (settingsLockfile : Option String) : FLState :=
  { lockfile := settingsLockfile.getD "migrations.lock"
    lockCounter := 0
    osHeld := false }

/-- `FileLock.acquire` (file.py:28-30): delegate to the wrapped lock's
`acquire` and return `.lock.is_locked` of the proxy. A `filelock.Timeout`
raised by the wrapped call propagates to the caller. -/
def FileLock.acquire (blocking : Bool) (timeout : Int) (freeAt : Option Nat)
    (s : FLState) : PyResult (Bool × FLState) :=
  match flAcquire blocking timeout freeAt s with
  | .ok s' => .ok (s'.is_locked, s')
  | .exn e => .exn e
  | .hang => .hang

/-- `FileLock.release` (file.py:32-34): delegate to the wrapped lock's
`release`, which never raises. -/
def FileLock.release (s : FLState) : PyResult FLState :=
  .ok (flRelease s)

/-- `FileLock.locked` (file.py:36-38): report the wrapped lock's
`is_locked`. -/
def FileLock.locked (s : FLState) : Bool :=
  s.is_locked

/-- `FileLock.__enter__` (file.py:40-42): call the wrapped lock's `acquire`
with no arguments, so the instance defaults apply — `blocking=True` and
`timeout=-1` (unbounded) — and return the proxy's `.lock.is_locked`. -/
def FileLock.enter (freeAt : Option Nat) (s : FLState) : PyResult (Bool × FLState) :=
  FileLock.acquire true (-1) freeAt s

/-- `FileLock.__exit__` (file.py:44-46): call the wrapped lock's `release`,
ignoring the exception information. -/
def FileLock.exit (_exc : Option PyExn) (s : FLState) : PyResult FLState :=
  FileLock.release s

/-- Behavior of one lock backend class as used by `Command.handle`: the state
produced by the constructor, the `acquire` method (blocking flag, timeout,
environment, state) and the `release` method. -/
structure LockClass where
  new : FLState
  acquire : Bool → Int → Option Nat → FLState → PyResult (Bool × FLState)
  release : FLState → PyResult FLState

/-- The `FileLock` backend packaged as a `LockClass` (constructed with no
`LOCKED_MIGRATIONS_LOCKFILE` setting, so the default path applies). -/
def fileLockClass : LockClass :=
  { new := FileLock.init none
    acquire := FileLock.acquire
    release := FileLock.release }

/-- Acquire method of a hypothetical plugin backend that follows the
`AbstractBaseLock` contract as documented in backends/__init__.py:15-32: the
return value is `true` if the lock is acquired, `false` if not (for example if
the timeout expired) — failure is reported by the return value, not by an
exception. Such a backend is admitted by the command's `--lock-backend`
plugin surface; none ships under src/. -/
def ContractLock.acquire (blocking : Bool) (timeout : Int) (freeAt : Option Nat)
    (s : FLState) : PyResult (Bool × FLState) :=
  match freeAt with
  | some t =>
      if blocking then
        if 0 ≤ timeout ∧ timeout < (t : Int) then .ok (false, s)
        else .ok (true, { s with lockCounter := 1, osHeld := true })
      else
        if t = 0 then .ok (true, { s with lockCounter := 1, osHeld := true })
        else .ok (false, s)
  | none =>
      if blocking ∧ timeout < 0 then .hang else .ok (false, s)

/-- Release method of the contract-following plugin backend, as documented in
backends/__init__.py:34-46: when invoked on an unlocked lock, a `RuntimeError`
is raised. -/
def ContractLock.release (s : FLState) : PyResult FLState :=
  if s.osHeld then .ok { s with lockCounter := 0, osHeld := false }
  else .exn .runtimeError

/-- The contract-following plugin backend packaged as a `LockClass`. -/
def contractLockClass : LockClass :=
  { new := { lockfile := "migrations.lock", lockCounter := 0, osHeld := false }
    acquire := ContractLock.acquire
    release := ContractLock.release }

/-- Interpretation of a backend class object stored in the options dict by its
identity: the shipped `file` backend, or the contract-following plugin
backend. -/
def classOf (name : String) : LockClass :=
  if name = "contract" then contractLockClass else fileLockClass

/-- A value stored in the command's options dict: the lock backend class set
by the `GetBackend` action (identified here by name), an integer, or a
string. -/
inductive OptVal where
  | backendCls (name : String)
  | int (n : Int)
  | str (v : String)
deriving DecidableEq

/-- Python's `dict.pop(key)`: remove the binding for `key` and return its
value together with the remaining dict; `none` models the `KeyError` raised
when the key is absent. -/
def popOpt (k : String) : List (String × OptVal) → Option (OptVal × List (String × OptVal))
  | [] => none
  | (k', v) :: rest =>
      if k' = k then some (v, rest)
      else
        match popOpt k rest with
        | some (v', rest') => some (v', (k', v) :: rest')
        | none => none

/-- Removal of the binding for `k` from an options dict, leaving the other
bindings in place. -/
def eraseKey (k : String) : List (String × OptVal) → List (String × OptVal)
  | [] => []
  | (k', v) :: rest => if k' = k then rest else (k', v) :: eraseKey k rest

/-- Observable events of one `Command.handle` invocation: the `acquire` call,
the protected `super().handle(...)` call, and the `release` call. -/
inductive Event where
  | acquireCall
  | opRun
  | releaseCall
deriving DecidableEq

/-- Python `try`/`finally` around a body that has already produced `body`: the
`finally` clause runs next, and if it raises (or never returns) its outcome
replaces the body's; otherwise the body's outcome stands. -/
def tryFinally {α : Type} (body : PyResult α) (fin : PyResult FLState) : PyResult α :=
  match fin with
  | .ok _ => body
  | .exn e => .exn e
  | .hang => .hang

/-- `Command.handle` (migrate.py:54-65): pop `lock_backend` and `lock_timeout`
from the options, construct the lock, call `lock.acquire(timeout=timeout)` —
discarding its boolean result — and run `super().handle(*args, **options)`
inside `try`/`finally` with `lock.release()` in the `finally` block. An
exception raised by `acquire` propagates before the `try` block is entered.
The second component records the events in order. -/
def Command.handle {α : Type} (freeAt : Option Nat) (opts : List (String × OptVal))
    (op : List (String × OptVal) → PyResult α) : PyResult α × List Event :=
  match popOpt "lock_backend" opts with
  | none => (.exn .keyError, [])
  | some (bv, opts1) =>
    match popOpt "lock_timeout" opts1 with
    | none => (.exn .keyError, [])
    | some (tv, opts2) =>
      match bv, tv with
      | .backendCls bn, .int timeout =>
        let L := classOf bn
        match L.acquire true timeout freeAt L.new with
        | .hang => (.hang, [.acquireCall])
        | .exn e => (.exn e, [.acquireCall])
        | .ok p =>
          match op opts2 with
          | .hang => (.hang, [.acquireCall, .opRun])
          | body => (tryFinally body (L.release p.2), [.acquireCall, .opRun, .releaseCall])
      | _, _ => (.exn .typeError, [])

/-- Popping a key returns the dict with exactly that binding removed. -/
theorem popOpt_eq_eraseKey (k : String) :
    ∀ (opts : List (String × OptVal)) (v : OptVal) (rest : List (String × OptVal)),
      popOpt k opts = some (v, rest) → rest = eraseKey k opts := by
  intro opts
  induction opts with
  | nil => intro v rest h; simp [popOpt] at h
  | cons hd tl ih =>
    intro v rest h
    by_cases hk : hd.1 = k
    · simp [popOpt, eraseKey, hk] at h ⊢
      exact h.2.symm
    · rcases hpop : popOpt k tl with _ | ⟨v', rest'⟩
      · simp [popOpt, eraseKey, hk, hpop] at h
      · simp [popOpt, eraseKey, hk, hpop] at h ⊢
        rcases h with ⟨hv, hrest⟩
        rw [← hrest, ih v' rest' hpop]

/-- With the backends reachable from the command, a `release` that follows a
successful `acquire` (one that returned `true`) returns normally. -/
theorem classOf_release_after_acquire (bn : String) (tmo : Int) (freeAt : Option Nat)
    (s1 : FLState)
    (h : (classOf bn).acquire true tmo freeAt (classOf bn).new = .ok (true, s1)) :
    ∃ s2, (classOf bn).release s1 = .ok s2 := by
  by_cases hbn : bn = "contract"
  · have hheld : s1.osHeld = true := by
      simp [classOf, hbn, contractLockClass, ContractLock.acquire] at h
      rcases freeAt with _ | t
      · split_ifs at h
        all_goals simp at h
      · simp at h
        split_ifs at h with h1
        · simp at h
        · simp at h
          rw [← h]
    simp [classOf, hbn, contractLockClass, ContractLock.release, hheld]
  · exact ⟨flRelease s1, by simp [classOf, hbn, fileLockClass, FileLock.release]⟩

/-- C1: in every `Command.handle` invocation whose `acquire` call succeeds
(returns `true`), and whose protected operation terminates (normally or with
an exception), `lock.release()` is executed exactly once before the
invocation returns — the event trace is acquire, protected operation,
release, whatever the protected operation's outcome. -/
theorem handle_releases_exactly_once {α : Type} (freeAt : Option Nat)
    (opts opts1 opts2 : List (String × OptVal)) (bn : String) (tmo : Int) (s1 : FLState)
    (op : List (String × OptVal) → PyResult α)
    (h1 : popOpt "lock_backend" opts = some (.backendCls bn, opts1))
    (h2 : popOpt "lock_timeout" opts1 = some (.int tmo, opts2))
    (h3 : (classOf bn).acquire true tmo freeAt (classOf bn).new = .ok (true, s1))
    (h4 : op opts2 ≠ .hang) :
    (Command.handle freeAt opts op).2 = [.acquireCall, .opRun, .releaseCall] ∧
    (Command.handle freeAt opts op).2.count .releaseCall = 1 := by
  have htr : (Command.handle freeAt opts op).2 = [.acquireCall, .opRun, .releaseCall] := by
    unfold Command.handle
    simp only [h1, h2, h3]
  exact ⟨htr, by rw [htr]; rfl⟩

/-- Witness for C1: a concrete run with the `file` backend, a free lock, and
a protected operation that raises; release still runs exactly once. -/
theorem handle_releases_exactly_once_witness :
    (Command.handle (some 0)
        [("lock_backend", OptVal.backendCls "file"), ("lock_timeout", OptVal.int 60)]
        (fun _ => (PyResult.exn (.opFailure 7) : PyResult Int))).2
      = [.acquireCall, .opRun, .releaseCall] :=
  (handle_releases_exactly_once (some 0)
      [("lock_backend", OptVal.backendCls "file"), ("lock_timeout", OptVal.int 60)]
      [("lock_timeout", OptVal.int 60)] [] "file" 60
      { lockfile := "migrations.lock", lockCounter := 1, osHeld := true }
      (fun _ => (PyResult.exn (.opFailure 7) : PyResult Int))
      rfl rfl rfl (by decide)).1

/-- C2: the claim states that whenever the `acquire` call fails to obtain the
lock — in particular when it returns `false` — the protected operation never
runs, no `release()` is attempted, and the failure is surfaced as an
acquisition-timeout error. On the code this is false: `Command.handle`
(migrate.py:60) discards `acquire`'s return value, so with a backend that
follows the `AbstractBaseLock` contract and reports timeout by returning
`false`, the protected operation runs anyway, `release()` is attempted in the
`finally` block, and the surfaced error is that release's `RuntimeError`, not
a timeout error. -/
theorem handle_runs_op_and_release_after_false_acquire :
    Command.handle none
        [("lock_backend", OptVal.backendCls "contract"), ("lock_timeout", OptVal.int 1)]
        (fun _ => (PyResult.ok 42 : PyResult Int)) =
      (.exn .runtimeError, [.acquireCall, .opRun, .releaseCall]) ∧
    Event.opRun ∈ (Command.handle none
        [("lock_backend", OptVal.backendCls "contract"), ("lock_timeout", OptVal.int 1)]
        (fun _ => (PyResult.ok 42 : PyResult Int))).2 ∧
    Event.releaseCall ∈ (Command.handle none
        [("lock_backend", OptVal.backendCls "contract"), ("lock_timeout", OptVal.int 1)]
        (fun _ => (PyResult.ok 42 : PyResult Int))).2 := by
  refine ⟨rfl, by decide, by decide⟩

/-- C8: in every `Command.handle` invocation that acquires the lock, the
wrapper returns the protected operation's own outcome unchanged (normal
result, raised error, or divergence), and delegates with exactly the original
options minus the two lock-specific keys `lock_backend` and `lock_timeout`. -/
theorem handle_passes_through_result_and_options {α : Type} (freeAt : Option Nat)
    (opts opts1 opts2 : List (String × OptVal)) (bn : String) (tmo : Int) (s1 : FLState)
    (op : List (String × OptVal) → PyResult α)
    (h1 : popOpt "lock_backend" opts = some (.backendCls bn, opts1))
    (h2 : popOpt "lock_timeout" opts1 = some (.int tmo, opts2))
    (h3 : (classOf bn).acquire true tmo freeAt (classOf bn).new = .ok (true, s1)) :
    (Command.handle freeAt opts op).1 =
      op (eraseKey "lock_timeout" (eraseKey "lock_backend" opts)) ∧
    opts2 = eraseKey "lock_timeout" (eraseKey "lock_backend" opts) := by
  have e1 : opts1 = eraseKey "lock_backend" opts :=
    popOpt_eq_eraseKey "lock_backend" opts _ opts1 h1
  have e2 : opts2 = eraseKey "lock_timeout" (eraseKey "lock_backend" opts) := by
    rw [← e1]
    exact popOpt_eq_eraseKey "lock_timeout" opts1 _ opts2 h2
  refine ⟨?_, e2⟩
  rw [← e2]
  obtain ⟨s2, hrel⟩ := classOf_release_after_acquire bn tmo freeAt s1 h3
  unfold Command.handle
  simp only [h1, h2, h3]
  cases hop : op opts2 with
  | hang => rfl
  | ok a => simp [tryFinally, hrel]
  | exn e => simp [tryFinally, hrel]

/-- Witness for C8: a concrete run with the `file` backend whose protected
operation returns 42; the wrapper returns 42 and the delegated options are
the original ones minus the two lock keys. -/
theorem handle_passes_through_result_and_options_witness :
    (Command.handle (some 0)
        [("lock_backend", OptVal.backendCls "file"), ("lock_timeout", OptVal.int 60),
         ("verbosity", OptVal.int 2)]
        (fun _ => (PyResult.ok 42 : PyResult Int))).1 =
      (fun _ => (PyResult.ok 42 : PyResult Int))
        (eraseKey "lock_timeout" (eraseKey "lock_backend"
          [("lock_backend", OptVal.backendCls "file"), ("lock_timeout", OptVal.int 60),
           ("verbosity", OptVal.int 2)])) :=
  (handle_passes_through_result_and_options (some 0)
      [("lock_backend", OptVal.backendCls "file"), ("lock_timeout", OptVal.int 60),
       ("verbosity", OptVal.int 2)]
      [("lock_timeout", OptVal.int 60), ("verbosity", OptVal.int 2)]
      [("verbosity", OptVal.int 2)] "file" 60
      { lockfile := "migrations.lock", lockCounter := 1, osHeld := true }
      (fun _ => (PyResult.ok 42 : PyResult Int))
      rfl rfl rfl).1

/-- C4: the claim states that a blocking `FileLock.acquire` with a finite
positive timeout on a lock that stays held by another party returns `false`
once the timeout elapses, without raising. On the code this is false: the
wrapped `filelock` call raises `filelock.Timeout` on expiry, so
`FileLock.acquire` propagates an exception and never returns `false` — here
evaluated with `timeout = 1` against a holder that releases at instant 5
(after the bound) and against one that never releases; the third conjunct
shows the successful path does return `true` after transitioning to held. -/
theorem fileLock_acquire_raises_timeout_instead_of_false :
    FileLock.acquire true 1 (some 5) (FileLock.init none) = .exn .flTimeout ∧
    FileLock.acquire true 1 none (FileLock.init none) = .exn .flTimeout ∧
    FileLock.acquire true 1 (some 0) (FileLock.init none) =
      .ok (true, { lockfile := "migrations.lock", lockCounter := 1, osHeld := true }) := by
  refine ⟨rfl, rfl, rfl⟩

/-- C5: the claim states that `release()` on a `FileLock` that is not held
fails with a `RuntimeError`. On the code this is false: `FileLock.release`
delegates to `filelock`'s `release`, which is a silent no-op on an unlocked
lock. Evaluated here on a fresh (unlocked) instance, and on the full
double-release scenario — acquire, release, then a second release — the
second release returns normally instead of raising. -/
theorem fileLock_release_on_unlocked_is_silent :
    FileLock.release (FileLock.init none) = .ok (FileLock.init none) ∧
    FileLock.acquire true (-1) (some 0) (FileLock.init none) =
      .ok (true, { lockfile := "migrations.lock", lockCounter := 1, osHeld := true }) ∧
    FileLock.release { lockfile := "migrations.lock", lockCounter := 1, osHeld := true } =
      .ok { lockfile := "migrations.lock", lockCounter := 0, osHeld := false } ∧
    FileLock.release { lockfile := "migrations.lock", lockCounter := 0, osHeld := false } =
      .ok { lockfile := "migrations.lock", lockCounter := 0, osHeld := false } := by
  refine ⟨rfl, rfl, rfl, rfl⟩

/-- A Python class object as seen by `get_backend`'s scan: its object
identity (for the `val is not AbstractBaseLock` test) and whether
`issubclass(val, AbstractBaseLock)` holds. -/
structure PyClass where
  objId : Nat
  subclassOfABL : Bool
deriving DecidableEq

/-- The `AbstractBaseLock` class object itself (backends/__init__.py:8):
`issubclass(AbstractBaseLock, AbstractBaseLock)` is true. -/
def AbstractBaseLockCls : PyClass := { objId := 0, subclassOfABL := true }

/-- A member of a module's `__dict__`: a class, or any non-class value
(module, function, string, instance, ...) on which `issubclass` raises
`TypeError`. -/
inductive PyMember where
  | cls (c : PyClass)
  | nonClass
deriving DecidableEq

/-- Whether a module member is a class. -/
def PyMember.isClass : PyMember → Bool
  | .cls _ => true
  | .nonClass => false

/-- The scan loop of `get_backend` (backends/__init__.py:66-73): iterate over
the module's `__dict__` values; `issubclass` raising `TypeError` on a
non-class member is caught and the loop continues; the first member that is a
subclass of `AbstractBaseLock` and is not `AbstractBaseLock` itself is
returned. -/
def scanForBackend : List PyMember → Option PyClass
  | [] => none
  | .nonClass :: rest => scanForBackend rest
  | .cls c :: rest =>
      if c.subclassOfABL = true ∧ c.objId ≠ AbstractBaseLockCls.objId then some c
      else scanForBackend rest

/-- Failures of `get_backend`: `importlib.import_module` raising
`ModuleNotFoundError` for an unknown module, or the final
`ValueError('No backend found for ...')` when the scan finds nothing. -/
inductive BackendErr where
  | moduleNotFound
  | noBackendFound
deriving DecidableEq

/-- `get_backend` (backends/__init__.py:63-75): import
`locked_migrations.backends.{name}` (raising `ModuleNotFoundError` if no such
module exists), scan its `__dict__` for a concrete `AbstractBaseLock`
subclass, and raise `ValueError` if none is found. `modules` maps a full
module name to its `__dict__` values in insertion order. -/
def get_backend (modules : String → Option (List PyMember)) (name : String) :
    Except BackendErr PyClass :=
  match modules ("locked_migrations.backends." ++ name) with
  | none => .error .moduleNotFound
  | some members =>
      match scanForBackend members with
      | some c => .ok c
      | none => .error .noBackendFound

/-- The `filelock.FileLock` class imported as `BaseFileLock` (file.py:9): a
class, but not an `AbstractBaseLock` subclass. -/
def BaseFileLockCls : PyClass := { objId := 1, subclassOfABL := false }

/-- The concrete `FileLock` backend class (file.py:16). -/
def FileLockCls : PyClass := { objId := 2, subclassOfABL := true }

/-- The `__dict__` values of module `locked_migrations.backends.file`, in
insertion order: the dunder entries, the `annotations` future-import flag,
the `logging` module, `typing.Any`, `django.conf.settings`, the imported
`BaseFileLock` class, the imported `AbstractBaseLock` class, the module
`logger`, and finally the `FileLock` class defined by the module. -/
def fileModuleMembers : List PyMember :=
  [.nonClass, .nonClass, .nonClass, .nonClass, .nonClass, .nonClass,
   .nonClass,
   .nonClass,
   .nonClass,
   .nonClass,
   .cls BaseFileLockCls,
   .cls AbstractBaseLockCls,
   .nonClass,
   .cls FileLockCls]

/-- The modules importable as `locked_migrations.backends.{name}` in this
repository: only `file.py` exists. -/
def realModules : String → Option (List PyMember) := fun n =>
  if n = "locked_migrations.backends.file" then some fileModuleMembers else none

/-- A successful scan returns a module member that is a concrete
`AbstractBaseLock` subclass distinct from `AbstractBaseLock` itself. -/
theorem scanForBackend_sound :
    ∀ (ms : List PyMember) (c : PyClass), scanForBackend ms = some c →
      PyMember.cls c ∈ ms ∧ c.subclassOfABL = true ∧ c.objId ≠ AbstractBaseLockCls.objId := by
  intro ms
  induction ms with
  | nil => intro c h; simp [scanForBackend] at h
  | cons m rest ih =>
    intro c h
    cases m with
    | nonClass =>
      rcases ih c h with ⟨hmem, hsub, hne⟩
      exact ⟨List.mem_cons_of_mem _ hmem, hsub, hne⟩
    | cls c' =>
      by_cases hc : c'.subclassOfABL = true ∧ c'.objId ≠ AbstractBaseLockCls.objId
      · simp [scanForBackend, hc] at h
        exact ⟨by simp [← h], h ▸ hc.1, h ▸ hc.2⟩
      · simp only [scanForBackend, if_neg hc] at h
        rcases ih c h with ⟨hmem, hsub, hne⟩
        exact ⟨List.mem_cons_of_mem _ hmem, hsub, hne⟩

/-- C6: for every module table and backend name, `get_backend` either
returns a class found in the named module that is a concrete subclass of the
lock interface — never `AbstractBaseLock` itself, and never a value from
anywhere else — or fails with a backend-not-found error (the import error
for an unknown module, or the `ValueError` when the module holds no
qualifying class); there is no silent fallback. -/
theorem get_backend_concrete_subclass_or_error
    (modules : String → Option (List PyMember)) (name : String) :
    (∀ c, get_backend modules name = .ok c →
        c.subclassOfABL = true ∧ c.objId ≠ AbstractBaseLockCls.objId ∧
        ∃ members, modules ("locked_migrations.backends." ++ name) = some members ∧
          PyMember.cls c ∈ members) ∧
    (∀ members, modules ("locked_migrations.backends." ++ name) = some members →
        (∀ c, PyMember.cls c ∈ members →
          ¬(c.subclassOfABL = true ∧ c.objId ≠ AbstractBaseLockCls.objId)) →
        get_backend modules name = .error .noBackendFound) := by
  constructor
  · intro c hok
    unfold get_backend at hok
    rcases hmod : modules ("locked_migrations.backends." ++ name) with _ | members
    · simp only [hmod] at hok
      simp at hok
    · simp only [hmod] at hok
      rcases hscan : scanForBackend members with _ | c'
      · simp only [hscan] at hok
        simp at hok
      · simp only [hscan] at hok
        simp at hok
        rcases scanForBackend_sound members c' hscan with ⟨hmem, hsub, hne⟩
        subst hok
        exact ⟨hsub, hne, members, rfl, hmem⟩
  · intro members hmod hnone
    have hscan : scanForBackend members = none := by
      rcases hscan : scanForBackend members with _ | c
      · rfl
      · rcases scanForBackend_sound members c hscan with ⟨hmem, hsub, hne⟩
        exact absurd ⟨hsub, hne⟩ (hnone c hmem)
    unfold get_backend
    simp only [hmod, hscan]

/-- Witness for C6: on the repository's actual module table, resolving
`file` yields the concrete `FileLock` class, which satisfies every
conclusion; resolving an unknown name fails. -/
theorem get_backend_concrete_subclass_or_error_witness :
    get_backend realModules "file" = .ok FileLockCls ∧
    (FileLockCls.subclassOfABL = true ∧
      FileLockCls.objId ≠ AbstractBaseLockCls.objId ∧
      ∃ members, realModules "locked_migrations.backends.file" = some members ∧
        PyMember.cls FileLockCls ∈ members) ∧
    get_backend realModules "redis" = .error .moduleNotFound := by
  refine ⟨rfl, ?_, rfl⟩
  exact (get_backend_concrete_subclass_or_error realModules "file").1 FileLockCls rfl

/-- C10: non-class members of a scanned module never affect backend
resolution — the `TypeError` from `issubclass` is caught and the loop moves
on, so the scan's result over any member list equals its result over the
classes alone, and inserting a non-class member anywhere changes nothing. -/
theorem scanForBackend_skips_nonclass_members :
    (∀ ms : List PyMember,
      scanForBackend ms = scanForBackend (ms.filter PyMember.isClass)) ∧
    (∀ pre post : List PyMember,
      scanForBackend (pre ++ PyMember.nonClass :: post) = scanForBackend (pre ++ post)) := by
  have hfilter : ∀ ms : List PyMember,
      scanForBackend ms = scanForBackend (ms.filter PyMember.isClass) := by
    intro ms
    induction ms with
    | nil => rfl
    | cons m rest ih =>
      cases m with
      | nonClass => simpa [scanForBackend, PyMember.isClass] using ih
      | cls c =>
        by_cases hc : c.subclassOfABL = true ∧ c.objId ≠ AbstractBaseLockCls.objId
        · simp [scanForBackend, PyMember.isClass, hc]
        · simp [scanForBackend, PyMember.isClass, hc, ih]
  refine ⟨hfilter, ?_⟩
  intro pre post
  induction pre with
  | nil => rfl
  | cons m rest ih =>
    cases m with
    | nonClass => simpa [scanForBackend] using ih
    | cls c =>
      by_cases hc : c.subclassOfABL = true ∧ c.objId ≠ AbstractBaseLockCls.objId
      · simp [scanForBackend, hc]
      · simp [scanForBackend, hc, ih]

/-- C7: the scoped-acquisition form of the file backend. Entering the scope
acquires with `blocking=True` and the instance default `timeout=-1`: the wait
is unbounded — it succeeds for a lock freed at any instant `t`, however far
beyond any finite bound, returning the acquisition outcome `true`, and blocks
forever (rather than timing out) if the lock is never freed. Leaving the
scope calls `release` unconditionally: `__exit__` invokes the same release
regardless of the exception information, so error propagation still
releases. -/
theorem fileLock_scoped_acquisition (s : FLState) (hs : s.osHeld = false) :
    (∀ t : Nat, FileLock.enter (some t) s =
        .ok (true, { s with lockCounter := s.lockCounter + 1, osHeld := true })) ∧
    FileLock.enter none s = .hang ∧
    (∀ exc : Option PyExn, FileLock.exit exc s = FileLock.release s) := by
  refine ⟨?_, ?_, fun _ => rfl⟩
  · intro t
    simp [FileLock.enter, FileLock.acquire, flAcquire, hs, FLState.is_locked]
  · simp [FileLock.enter, FileLock.acquire, flAcquire, hs]

/-- Witness for C7: a fresh `FileLock` instance is not held; entering the
scope succeeds even when the lock only becomes free at instant 1000000, and
blocks forever when it never does. -/
theorem fileLock_scoped_acquisition_witness :
    (FileLock.init none).osHeld = false ∧
    FileLock.enter (some 1000000) (FileLock.init none) =
      .ok (true, { lockfile := "migrations.lock", lockCounter := 1, osHeld := true }) ∧
    FileLock.enter none (FileLock.init none) = .hang :=
  ⟨rfl,
   (fileLock_scoped_acquisition (FileLock.init none) rfl).1 1000000,
   (fileLock_scoped_acquisition (FileLock.init none) rfl).2.1⟩

/-- Observable steps of one wrapped-command invocation, for the
argument-wiring claims: a `get_backend` resolution, the construction of a
lock instance in `handle`, and the start of the protected operation. -/
inductive Step where
  | resolveBackend (name : String)
  | constructLock
  | runProtectedOp
deriving DecidableEq

/-- The Python exception corresponding to a `get_backend` failure. -/
def pyExnOf : BackendErr → PyExn
  | .moduleNotFound => .moduleNotFound
  | .noBackendFound => .valueError

/-- One invocation of the wrapped `migrate` command from parser construction
onward (migrate.py:35-65). Building the parser evaluates the `--lock-backend`
default `get_backend('file')` eagerly (migrate.py:42); if the option is
given, the `GetBackend` action (migrate.py:18-29) calls `get_backend` on its
value during parsing; only after parsing does `handle` construct the lock
instance, acquire it, run the base command, and release in the `finally`
block. `behav` gives the lock behavior of a resolved backend class; `op` is
the protected operation's outcome; the second component records the steps in
order. -/
def runCommand (modules : String → Option (List PyMember))
    (behav : PyClass → LockClass) (cliBackend : Option String) (timeout : Int)
    (freeAt : Option Nat) (op : PyResult Int) : PyResult Int × List Step :=
  match get_backend modules "file" with
  | .error e => (.exn (pyExnOf e), [.resolveBackend "file"])
  | .ok defaultCls =>
    let parsed : Except BackendErr PyClass × List Step :=
      match cliBackend with
      | none => (.ok defaultCls, [.resolveBackend "file"])
      | some n =>
        match get_backend modules n with
        | .error e => (.error e, [.resolveBackend "file", .resolveBackend n])
        | .ok c => (.ok c, [.resolveBackend "file", .resolveBackend n])
    match parsed with
    | (.error e, tr) => (.exn (pyExnOf e), tr)
    | (.ok c, tr) =>
      let L := behav c
      match L.acquire true timeout freeAt L.new with
      | .hang => (.hang, tr ++ [.constructLock])
      | .exn e => (.exn e, tr ++ [.constructLock])
      | .ok p =>
        match op with
        | .hang => (.hang, tr ++ [.constructLock, .runProtectedOp])
        | body => (tryFinally body (L.release p.2), tr ++ [.constructLock, .runProtectedOp])

/-- C9: backend resolution happens at argument-parsing time. On the
repository's module table, every invocation's step trace contains a
resolution of the `file` backend (the eagerly evaluated parser default),
even when a different backend is selected on the command line; and when the
command line names an unknown backend, the invocation fails during parsing
with that resolution's error — before any lock instance is constructed and
before the protected operation starts. -/
theorem backend_resolution_at_parse_time
    (behav : PyClass → LockClass) (cliBackend : Option String) (timeout : Int)
    (freeAt : Option Nat) (op : PyResult Int) :
    Step.resolveBackend "file" ∈
      (runCommand realModules behav cliBackend timeout freeAt op).2 ∧
    (∀ n e, cliBackend = some n → get_backend realModules n = .error e →
      runCommand realModules behav cliBackend timeout freeAt op =
        (.exn (pyExnOf e), [.resolveBackend "file", .resolveBackend n]) ∧
      Step.constructLock ∉ (runCommand realModules behav cliBackend timeout freeAt op).2 ∧
      Step.runProtectedOp ∉ (runCommand realModules behav cliBackend timeout freeAt op).2) := by
  have hfile : get_backend realModules "file" = .ok FileLockCls := rfl
  constructor
  · unfold runCommand
    simp only [hfile]
    rcases cliBackend with _ | n
    · rcases hacq : (behav FileLockCls).acquire true timeout freeAt (behav FileLockCls).new
        with p | e2 | _ <;> simp only [hacq] <;> rcases op with v | e3 | _ <;> simp
    · rcases hn : get_backend realModules n with e | c
      · simp [hn]
      · simp only [hn]
        rcases hacq : (behav c).acquire true timeout freeAt (behav c).new
          with p | e2 | _ <;> simp only [hacq] <;> rcases op with v | e3 | _ <;> simp
  · intro n e hcli hne
    subst hcli
    unfold runCommand
    simp only [hfile, hne]
    exact ⟨by simp, by simp, by simp⟩

/-- Witness for C9: selecting the unknown backend `redis` on the repository's
module table fails with the import error after resolving both `file` (the
eager default) and `redis` during parsing, with no lock constructed and no
protected operation run. -/
theorem backend_resolution_at_parse_time_witness :
    runCommand realModules (fun _ => fileLockClass) (some "redis") 60 (some 0) (.ok 0) =
      (.exn .moduleNotFound, [.resolveBackend "file", .resolveBackend "redis"]) ∧
    Step.resolveBackend "file" ∈
      (runCommand realModules (fun _ => fileLockClass) (some "redis") 60 (some 0) (.ok 0)).2 :=
  ⟨((backend_resolution_at_parse_time (fun _ => fileLockClass) (some "redis") 60 (some 0)
      (.ok 0)).2 "redis" .moduleNotFound rfl rfl).1,
   (backend_resolution_at_parse_time (fun _ => fileLockClass) (some "redis") 60 (some 0)
      (.ok 0)).1⟩

end LockedMigrations
